import Mathlib

/-!
Verification development for the shell-integration layer of micromamba
(`src/micromamba/src/shell.cpp` and `src/libmamba/include/mamba/api/shell.hpp`).

The C++ code is shallowly embedded: filesystem paths are strings joined with
the semantics of `std::filesystem::path::operator/` (an absolute right operand
replaces the whole path), machine-level effects (process spawn, configuration
load) are explicit data, and fallible callbacks return `Except`.
-/

namespace MambaShell

/-! ## Filesystem path join (model of fs::u8path operator/) -/

/-- Whether a path string begins with the separator character, i.e. is an
absolute POSIX path. -/
def first_is_sep (s : String) : Bool := s.data.head? == some '/'

/-- Whether a path string ends with the separator character. -/
def last_is_sep (s : String) : Bool := s.data.getLast? == some '/'

/-- Model of `std::filesystem::path::operator/` (used via `fs::u8path` in the
source): an absolute right operand replaces the whole path; otherwise the right
operand is appended, inserting a separator unless the left operand is empty or
already ends with one. -/
def path_div (a b : String) : String :=
  if first_is_sep b then b
  else if a = "" then b
  else if last_is_sep a then a ++ b
  else a ++ "/" ++ b

/-! ## Prefix resolution in the no-subcommand launch path -/

/-- Embedding of the lambda `get_prefix` in `set_shell_launch_command`
(shell.cpp:248-257): an empty or `"base"` shell_prefix resolves to the root
prefix; any other value is joined as `root_prefix / "envs" / value`. -/
def get_pfx (root_pfx sh_pfx : String) : String :=
  if sh_pfx = "" || sh_pfx = "base" then root_pfx
  else path_div (path_div root_pfx "envs") sh_pfx

/-! ## Shell-type consolidation -/

/-- The error produced when neither an explicit shell type nor a guess is
available: `consolidate_shell` (shell.cpp:66-68) logs an instructive message
and throws a `std::runtime_error`; the uncaught exception terminates the
process with a non-zero exit status. -/
structure ShellError where
  log_message : String
  thrown_message : String
  deriving DecidableEq, Repr

/-- Embedding of `consolidate_shell` (shell.cpp:51-69). The guess produced by
`guess_shell()` (environment inspection, outside this translation unit) is
passed in as the `guessed` argument. -/
def consolidate_shell (shell_type guessed : String) : Except ShellError String :=
  if shell_type ≠ "" then Except.ok shell_type
  else if guessed ≠ "" then Except.ok guessed
  else Except.error
    { log_message := "Please provide a shell type.\nRun with --help for more information.\n"
      thrown_message := "Unknown shell type. Aborting." }

/-! ## Default shell executable for the launch path -/

/-- The compile-time platform markers `on_win` / `on_mac` of the source. -/
inductive Platform
  | win
  | mac
  | other
  deriving DecidableEq, Repr

/-- Embedding of the lambda `get_shell` in `set_shell_launch_command`
(shell.cpp:259-270): the `SHELL` environment variable when set, else a
per-platform fallback (`cmd.exe` on Windows, `zsh` on macOS, `bash`
elsewhere). `shell_env` is the value of `env::get("SHELL")`. -/
def get_shell (plat : Platform) (shell_env : Option String) : String :=
  match plat with
  | Platform.win => shell_env.getD "cmd.exe"
  | Platform.mac => shell_env.getD "zsh"
  | Platform.other => shell_env.getD "bash"

/-! ## The -s (--shell) option check -/

/-- The nine shell identifiers of the `CLI::IsMember` set installed on the
`-s,--shell` option in `init_shell_parser` (shell.cpp:33-35). -/
def valid_shells : List String :=
  ["bash", "posix", "powershell", "cmd.exe", "xonsh", "zsh", "fish", "tcsh", "dash"]

/-- The `CLI::IsMember` validator on the `-s,--shell` option: a supplied value
passes exactly when it belongs to `valid_shells`. -/
def shell_option_check (s : String) : Bool := valid_shells.contains s

/-- A CLI invocation of a shell subcommand in which `-s <s>` was supplied.
CLI11 runs the `IsMember` check while parsing, before any callback runs; the
callback (whose side effects are abstracted as the list `effects`) is reached
only when validation succeeded, so a rejected identifier produces a parse
error and no effect. -/
def invoke_with_shell_option {α : Type} (s : String) (effects : List α) :
    Except String (List α) :=
  if shell_option_check s then Except.ok effects
  else Except.error "option validation failed: shell type not in the allowed set"

/-! ## The prefix option wiring -/

/-- The three surface spellings of the prefix option of `init_shell_parser`:
the positional `prefix`, `-p` (`--prefix`) and `-n` (`--name`). -/
inductive PfxFlag
  | positional
  | p_opt
  | n_opt
  deriving DecidableEq, Repr

/-- Embedding of shell.cpp:44-48: a single `add_option("prefix,-p,--prefix,-n,--name", ...)`
binds all three spellings to the one `shell_prefix` configurable, so whichever
flag carries the value, the stored string is the value itself. -/
def store_shell_pfx (_flag : PfxFlag) (value : String) : String := value

/-! ## The shell command router and the no-subcommand launch path -/

/-- The eight subcommands registered on `shell` in `set_shell_command`
(shell.cpp:288-343). -/
inductive Subcommand
  | init
  | deinit
  | reinit
  | hook
  | activate
  | reactivate
  | deactivate
  | enable_long_path_support
  deriving DecidableEq, Repr

/-- The `all_subsubcmds` array of `set_shell_command` (shell.cpp:339-342). -/
def all_subsubcmds : List Subcommand :=
  [Subcommand.init, Subcommand.deinit, Subcommand.reinit, Subcommand.hook,
   Subcommand.activate, Subcommand.reactivate, Subcommand.deactivate,
   Subcommand.enable_long_path_support]

/-- The marker `STREAM_OPTIONS::ALL_STREAMS`, the only stream policy used at
the launch call site (shell.cpp:276). -/
inductive StreamOptions
  | all_streams
  deriving DecidableEq, Repr

/-- The argument tuple of the `mamba::run_in_environment` call at
shell.cpp:272-281, in positional order. The last four arguments are passed as
the literals `false, false, {}, ""` at the call site. -/
structure RunArgs where
  target_pfx : String
  command : List String
  cwd : String
  streams : StreamOptions
  arg5 : Bool
  arg6 : Bool
  arg7 : List (String × String)
  arg8 : String
  deriving DecidableEq, Repr

/-- The inputs the launch callback reads: the root prefix from the context,
the `shell_prefix` configurable, the platform, and `env::get("SHELL")`. -/
structure LaunchState where
  root_pfx : String
  sh_pfx : String
  plat : Platform
  shell_env : Option String
  deriving DecidableEq, Repr

/-- The arguments the launch callback passes to `run_in_environment`
(shell.cpp:272-281): the resolved prefix, the single-element command
`{ get_shell() }`, the literal working directory `"."`, all streams
inherited, and the trailing literals. -/
def launch_run_args (st : LaunchState) : RunArgs :=
  { target_pfx := get_pfx st.root_pfx st.sh_pfx
    command := [get_shell st.plat st.shell_env]
    cwd := "."
    streams := StreamOptions.all_streams
    arg5 := false
    arg6 := false
    arg7 := []
    arg8 := "" }

/-- The observable actions of the launch callback. -/
inductive LaunchEffect
  | set_default_config
  | load_config
  | run_in_env (args : RunArgs)
  deriving DecidableEq, Repr

/-- Embedding of the callback of `set_shell_launch_command` (shell.cpp:231-284):
`parsed c` tells whether subcommand `c` was parsed; when any of
`all_subsubcmds` was parsed the callback returns having done nothing at all,
otherwise it sets default config options, loads the configuration and spawns
the subshell. -/
def shell_launch_callback (parsed : Subcommand → Bool) (st : LaunchState) :
    List LaunchEffect :=
  if all_subsubcmds.any parsed then []
  else
    [LaunchEffect.set_default_config, LaunchEffect.load_config,
     LaunchEffect.run_in_env (launch_run_args st)]

/-- Modelled from the spec: `mamba::run_in_environment` (declared in
`mamba/core/run.hpp`, implementation not under src/) spawns the command in the
given prefix, blocks until the child exits, and returns the child's exit
status unchanged. The child's status is the oracle argument `child_status`. -/
def run_in_environment (_args : RunArgs) (child_status : Int) : Int :=
  child_status

/-- The launch callback terminates with `exit(run_in_environment(...))`
(shell.cpp:272): the process exit code is the value `run_in_environment`
returned. -/
def launch_exit_code (st : LaunchState) (child_status : Int) : Int :=
  run_in_environment (launch_run_args st) child_status

/-! ## The deactivate / reactivate callbacks -/

/-- Calls into the `libmamba` API (`mamba/api/shell.hpp`) that the shell
subcommand callbacks can make. -/
inductive ShellApiCall
  | reactivate_call (shell_type : String)
  | deactivate_call (shell_type : String)
  deriving DecidableEq, Repr

/-- Embedding of the callback of `set_shell_reactivate_command`
(shell.cpp:176-191): the shell type is consolidated (explicit value, else
guess, else error) before `shell_reactivate` is called. -/
def reactivate_callback (shell_type guessed : String) : Except ShellError ShellApiCall :=
  (consolidate_shell shell_type guessed).map ShellApiCall.reactivate_call

/-- Embedding of the callback of `set_shell_deactivate_command`
(shell.cpp:193-206): unlike its siblings, it passes the computed `shell_type`
string directly to `shell_deactivate`, without `consolidate_shell`; the
`guessed` value is never consulted. -/
def deactivate_callback (shell_type _guessed : String) : Except ShellError ShellApiCall :=
  Except.ok (ShellApiCall.deactivate_call shell_type)

/-! ## The rc-file managed block (shell init) -/

/-- Modelled from the spec: the opening line of the fixed pair of delimiter
comments that identifies the managed block inside an rc file (`shell_init` is
declared in `mamba/api/shell.hpp`; its implementation is not under src/). -/
def block_open : String := "# >>> managed block >>>"

/-- Modelled from the spec: the closing delimiter comment of the managed
block. -/
def block_close : String := "# <<< managed block <<<"

/-- Splits a list of lines at the first occurrence of the delimiter line `d`,
returning the lines before it and the lines after it, or `none` when `d` does
not occur. -/
def break_at (d : String) : List String → Option (List String × List String)
  | [] => none
  | l :: ls =>
    if l = d then some ([], ls)
    else
      match break_at d ls with
      | none => none
      | some (a, b) => some (l :: a, b)

/-- The managed block for a given rendered hook: the hook code bracketed by
the delimiter pair. -/
def hook_block (hook : List String) : List String :=
  block_open :: (hook ++ [block_close])

/-- Modelled from the spec: `shell_init(shell_type, prefix)` on the dialect's
rc file, whose rendered hook code for the given dialect and prefix is `hook`.
If the managed block is absent the block is appended; if it is present and
identical the file is left untouched; if it is present but different it is
replaced in place, preserving the surrounding content. The rc file is its
list of lines. -/
def shell_init_rc (hook ls : List String) : List String :=
  match break_at block_open ls with
  | none => ls ++ hook_block hook
  | some (pre, rest) =>
    match break_at block_close rest with
    | none => ls ++ hook_block hook
    | some (mid, post) =>
      if mid = hook then ls
      else pre ++ hook_block hook ++ post

/-- Lines that contain neither delimiter comment. -/
def delim_free (ls : List String) : Prop :=
  ∀ l ∈ ls, l ≠ block_open ∧ l ≠ block_close

/-- A well-formed rc file: either no delimiter line occurs at all, or the
file carries exactly one properly bracketed managed block (the spec's
ManagedBlock invariant: at most one managed block per rc file). -/
def wf_rc (ls : List String) : Prop :=
  delim_free ls ∨
    ∃ pre mid post,
      ls = pre ++ block_open :: (mid ++ block_close :: post) ∧
        delim_free pre ∧ delim_free mid ∧ delim_free post

/-! ## Helper lemmas about the path model -/

/-- `path_div` inserts a separator in the ordinary case: relative right
operand, non-empty left operand without a trailing separator. -/
theorem path_div_rel {a b : String} (hb : first_is_sep b = false) (ha : a ≠ "")
    (hsep : last_is_sep a = false) : path_div a b = a ++ "/" ++ b := by
  simp [path_div, hb, ha, hsep]

/-- Appending the non-empty literal `"/envs"` yields a non-empty string. -/
theorem append_envs_ne_empty (a : String) : a ++ "/envs" ≠ "" := by
  intro h
  have h2 := congrArg String.data h
  rw [String.data_append] at h2
  exact absurd (List.append_eq_nil.mp h2).2 (by decide)

/-- A string ending in the literal `"/envs"` does not end in a separator. -/
theorem last_is_sep_append_envs (a : String) : last_is_sep (a ++ "/envs") = false := by
  rw [last_is_sep, String.data_append, List.getLast?_append]
  rfl

/-- In the ordinary case — non-empty root prefix without a trailing
separator, non-empty relative value other than `base` — the resolved launch
prefix is the concatenation `root ++ "/envs/" ++ value`. -/
theorem get_pfx_concat {root p : String} (h1 : p ≠ "") (h2 : p ≠ "base")
    (h3 : first_is_sep p = false) (h4 : root ≠ "") (h5 : last_is_sep root = false) :
    get_pfx root p = root ++ "/envs/" ++ p := by
  have e1 : path_div root "envs" = root ++ "/envs" := by
    rw [path_div_rel (by decide) h4 h5, String.append_assoc]
    rfl
  have e2 : path_div (root ++ "/envs") p = root ++ "/envs/" ++ p := by
    rw [path_div_rel h3 (append_envs_ne_empty root) (last_is_sep_append_envs root),
      String.append_assoc root "/envs" "/"]
    rfl
  simp [get_pfx, h1, h2, e1, e2]

/-- Claim C1: in the no-subcommand launch path, an empty or `"base"`
shell_prefix resolves to the root prefix itself — never into the `envs`
subdirectory — and every other non-empty value resolves to
`root_prefix / "envs" / value`; the third conjunct spells the joined path out
as the concatenation `root ++ "/envs/" ++ value` in the ordinary case of a
non-empty root prefix without a trailing separator and a relative value. -/
theorem c1_launch_pfx_resolution (root p : String) :
    (p = "" ∨ p = "base" → get_pfx root p = root)
    ∧ (p ≠ "" → p ≠ "base" → get_pfx root p = path_div (path_div root "envs") p)
    ∧ (p ≠ "" → p ≠ "base" → first_is_sep p = false → root ≠ "" →
        last_is_sep root = false → get_pfx root p = root ++ "/envs/" ++ p) := by
  refine ⟨?_, ?_, ?_⟩
  · rintro (h | h) <;> simp [get_pfx, h]
  · intro h1 h2
    simp [get_pfx, h1, h2]
  · intro h1 h2 h3 h4 h5
    exact get_pfx_concat h1 h2 h3 h4 h5

/-- Witness for C1 at the spec's end-to-end scenarios: root prefix `/root`,
values `""`, `"base"` and `"myenv"`. -/
theorem c1_witness :
    get_pfx "/root" "" = "/root" ∧ get_pfx "/root" "base" = "/root"
      ∧ get_pfx "/root" "myenv" = "/root/envs/myenv" :=
  ⟨(c1_launch_pfx_resolution "/root" "").1 (Or.inl rfl),
   (c1_launch_pfx_resolution "/root" "base").1 (Or.inr rfl),
   (c1_launch_pfx_resolution "/root" "myenv").2.2 (by decide) (by decide) (by decide)
     (by decide) (by decide)⟩

/-- Claim C2: a value supplied to the -s (--shell) option passes the
`CLI::IsMember` validator exactly when it is one of the nine enumerated
identifiers; any other supplied identifier is rejected while parsing, so the
callback's side effects are never produced. -/
theorem c2_shell_option_validation (s : String) (effects : List ShellApiCall) :
    (shell_option_check s = true ↔
      (s = "bash" ∨ s = "posix" ∨ s = "powershell" ∨ s = "cmd.exe" ∨ s = "xonsh"
        ∨ s = "zsh" ∨ s = "fish" ∨ s = "tcsh" ∨ s = "dash"))
    ∧ (shell_option_check s = true →
        invoke_with_shell_option s effects = Except.ok effects)
    ∧ (shell_option_check s = false →
        invoke_with_shell_option s effects =
          Except.error "option validation failed: shell type not in the allowed set") := by
  refine ⟨by simp [shell_option_check, valid_shells], ?_, ?_⟩
  · intro h
    simp [invoke_with_shell_option, h]
  · intro h
    simp [invoke_with_shell_option, h]

/-- Witness for C2: `zsh` is accepted, `nushell` is rejected without any
effect. -/
theorem c2_witness :
    invoke_with_shell_option "zsh" [ShellApiCall.deactivate_call "zsh"]
        = Except.ok [ShellApiCall.deactivate_call "zsh"]
      ∧ invoke_with_shell_option "nushell" ([] : List ShellApiCall)
        = Except.error "option validation failed: shell type not in the allowed set" :=
  ⟨(c2_shell_option_validation "zsh" _).2.1 (by decide),
   (c2_shell_option_validation "nushell" _).2.2 (by decide)⟩

/-- Claim C3: `consolidate_shell` returns a non-empty explicit shell type
unchanged; with an empty explicit value it returns a non-empty guess; and when
both are empty it fails, logging the instructive message and throwing (the
uncaught `std::runtime_error` makes the process exit non-zero). -/
theorem c3_consolidate_shell (st g : String) :
    (st ≠ "" → consolidate_shell st g = Except.ok st)
    ∧ (st = "" → g ≠ "" → consolidate_shell st g = Except.ok g)
    ∧ (st = "" → g = "" →
        consolidate_shell st g = Except.error
          { log_message := "Please provide a shell type.\nRun with --help for more information.\n"
            thrown_message := "Unknown shell type. Aborting." }) := by
  refine ⟨?_, ?_, ?_⟩
  · intro h
    simp [consolidate_shell, h]
  · intro h1 h2
    simp [consolidate_shell, h1, h2]
  · intro h1 h2
    simp [consolidate_shell, h1, h2]

/-- Witness for C3: explicit `bash` wins; guessed `zsh` is used when the
explicit value is empty; both empty fails with the instructive message. -/
theorem c3_witness :
    consolidate_shell "bash" "" = Except.ok "bash"
      ∧ consolidate_shell "" "zsh" = Except.ok "zsh"
      ∧ consolidate_shell "" "" = Except.error
          { log_message := "Please provide a shell type.\nRun with --help for more information.\n"
            thrown_message := "Unknown shell type. Aborting." } :=
  ⟨(c3_consolidate_shell "bash" "").1 (by decide),
   (c3_consolidate_shell "" "zsh").2.1 rfl (by decide),
   (c3_consolidate_shell "" "").2.2 rfl rfl⟩

/-- Claim C4: the launch path's command is the single executable computed by
`get_shell`, which is the `SHELL` environment variable whenever it is set and
otherwise `cmd.exe` on Windows, `zsh` on macOS and `bash` on every other
platform. -/
theorem c4_launch_shell_default (st : LaunchState) (s : String) :
    (launch_run_args st).command = [get_shell st.plat st.shell_env]
    ∧ (∀ p : Platform, get_shell p (some s) = s)
    ∧ get_shell Platform.win none = "cmd.exe"
    ∧ get_shell Platform.mac none = "zsh"
    ∧ get_shell Platform.other none = "bash" := by
  refine ⟨rfl, ?_, rfl, rfl, rfl⟩
  intro p
  cases p <;> rfl

/-- Claim C5: the no-subcommand launch path terminates with
`exit(run_in_environment(...))`, so the process exit code is the subshell's
exit status, passed through unchanged. -/
theorem c5_launch_exit_passthrough (st : LaunchState) (child_status : Int) :
    launch_exit_code st child_status = child_status := rfl

/-- Claim C6 counterexample: with an empty explicit shell type and an
inconclusive (empty) guess, the deactivate callback does not fail with the
no-shell-specified error: it succeeds and calls `shell_deactivate` with the
empty dialect. -/
theorem c6_counterexample :
    deactivate_callback "" "" = Except.ok (ShellApiCall.deactivate_call "")
      ∧ (deactivate_callback "" "").isOk = true :=
  ⟨rfl, rfl⟩

/-- Claim C6 as amended: the deactivate callback, unlike the sibling
subcommands, never consolidates the shell type: for every explicit value and
every guess it proceeds, passing the explicit string — the empty string
included — straight to `shell_deactivate`, and no error is raised at this
layer. -/
theorem c6_deactivate_passthrough (s g : String) :
    deactivate_callback s g = Except.ok (ShellApiCall.deactivate_call s) := rfl

/-- Claim C7 counterexample: the value `myenv` supplied through `-p`
(`--prefix`) is stored in the same `shell_prefix` configurable as a value of
`-n` (`--name`), and
the launch path resolves it under the `envs` subdirectory
(`/root/envs/myenv`), not as the filesystem path `myenv`. -/
theorem c7_counterexample :
    store_shell_pfx PfxFlag.p_opt "myenv" = store_shell_pfx PfxFlag.n_opt "myenv"
      ∧ get_pfx "/root" (store_shell_pfx PfxFlag.p_opt "myenv") = "/root/envs/myenv"
      ∧ get_pfx "/root" (store_shell_pfx PfxFlag.p_opt "myenv") ≠ "myenv" := by
  refine ⟨rfl, by decide, by decide⟩

/-- Claim C7 as amended: the positional `prefix`, `-p` (`--prefix`) and `-n`
(`--name`) spellings are one option bound to the single `shell_prefix`
configurable, so prefix resolution is independent of which flag supplied the
value; in the launch path every non-empty relative value other than `base` is
resolved under `root_prefix/envs`, whichever flag carried it. -/
theorem c7_pfx_option_aliasing (f g : PfxFlag) (v root : String) :
    store_shell_pfx f v = v
    ∧ get_pfx root (store_shell_pfx f v) = get_pfx root (store_shell_pfx g v)
    ∧ (v ≠ "" → v ≠ "base" → first_is_sep v = false → root ≠ "" →
        last_is_sep root = false →
        get_pfx root (store_shell_pfx f v) = root ++ "/envs/" ++ v) := by
  refine ⟨rfl, rfl, ?_⟩
  intro h1 h2 h3 h4 h5
  exact get_pfx_concat h1 h2 h3 h4 h5

/-- Witness for C7 as amended: the value `docs` given positionally resolves to
`/root/envs/docs`. -/
theorem c7_witness :
    get_pfx "/root" (store_shell_pfx PfxFlag.positional "docs") = "/root/envs/docs" :=
  (c7_pfx_option_aliasing PfxFlag.positional PfxFlag.p_opt "docs" "/root").2.2
    (by decide) (by decide) (by decide) (by decide) (by decide)

/-- Every shell subcommand is an element of the `all_subsubcmds` array. -/
theorem mem_all_subsubcmds (c : Subcommand) : c ∈ all_subsubcmds := by
  cases c <;> simp [all_subsubcmds]

/-- Claim C8: whenever one of the eight shell subcommands was parsed, the
launch callback of `set_shell_launch_command` performs no action at all — no
configuration load and no process spawn. -/
theorem c8_launch_frame (parsed : Subcommand → Bool) (st : LaunchState)
    (c : Subcommand) (h : parsed c = true) :
    shell_launch_callback parsed st = [] := by
  have hany : all_subsubcmds.any parsed = true :=
    List.any_eq_true.mpr ⟨c, mem_all_subsubcmds c, h⟩
  simp [shell_launch_callback, hany]

/-- Witness for C8: with the `activate` subcommand parsed, the launch callback
has no effects. -/
theorem c8_witness :
    shell_launch_callback (fun x => decide (x = Subcommand.activate))
      { root_pfx := "/root", sh_pfx := "", plat := Platform.other, shell_env := none }
      = [] :=
  c8_launch_frame _ _ Subcommand.activate (by decide)

/-- Claim C10: the working-directory argument the launch callback passes to
`run_in_environment` is the literal `"."` — the caller's current directory —
and differs from the resolved prefix whenever that prefix is not itself
`"."`. -/
theorem c10_launch_cwd (st : LaunchState) :
    (launch_run_args st).cwd = "."
    ∧ (get_pfx st.root_pfx st.sh_pfx ≠ "." →
        (launch_run_args st).cwd ≠ get_pfx st.root_pfx st.sh_pfx) := by
  refine ⟨rfl, ?_⟩
  intro h hc
  exact h hc.symm

/-- Witness for C10: with root prefix `/root` and no shell_prefix, the spawned
subshell's working directory is `"."`, not the resolved prefix `/root`. -/
theorem c10_witness :
    (launch_run_args
        { root_pfx := "/root", sh_pfx := "", plat := Platform.other, shell_env := none }).cwd
        = "."
      ∧ (launch_run_args
          { root_pfx := "/root", sh_pfx := "", plat := Platform.other, shell_env := none }).cwd
        ≠ get_pfx "/root" "" :=
  ⟨(c10_launch_cwd _).1,
   (c10_launch_cwd
      { root_pfx := "/root", sh_pfx := "", plat := Platform.other, shell_env := none }).2
      (by decide)⟩

/-! ## Idempotence of shell init on the rc file -/

/-- `break_at` finds nothing in a list free of the delimiter. -/
theorem break_at_eq_none {d : String} {ls : List String} (h : ∀ l ∈ ls, l ≠ d) :
    break_at d ls = none := by
  induction ls with
  | nil => rfl
  | cons x xs ih =>
    have hx : x ≠ d := h x (List.mem_cons_self x xs)
    simp [break_at, hx, ih (fun l hl => h l (List.mem_cons_of_mem x hl))]

/-- `break_at` splits at the first occurrence of the delimiter. -/
theorem break_at_append {d : String} {xs ys : List String} (h : ∀ l ∈ xs, l ≠ d) :
    break_at d (xs ++ d :: ys) = some (xs, ys) := by
  induction xs with
  | nil => simp [break_at]
  | cons x xs ih =>
    have hx : x ≠ d := h x (List.mem_cons_self x xs)
    simp [break_at, hx, ih (fun l hl => h l (List.mem_cons_of_mem x hl))]

/-- A file already carrying the up-to-date managed block is left untouched by
shell init. -/
theorem shell_init_rc_fixed {hook pre post : List String} (hh : delim_free hook)
    (hpre : delim_free pre) :
    shell_init_rc hook (pre ++ block_open :: (hook ++ block_close :: post))
      = pre ++ block_open :: (hook ++ block_close :: post) := by
  have h1 : break_at block_open (pre ++ block_open :: (hook ++ block_close :: post))
      = some (pre, hook ++ block_close :: post) :=
    break_at_append (fun l hl => (hpre l hl).1)
  have h2 : break_at block_close (hook ++ block_close :: post) = some (hook, post) :=
    break_at_append (fun l hl => (hh l hl).2)
  simp [shell_init_rc, h1, h2]

/-- Claim C9: for every rendered hook (the dialect- and prefix-specific hook
code, which contains no delimiter line) and every well-formed rc file, running
shell init twice leaves the file with content identical to the content after
the first run: init never produces a duplicate managed block. -/
theorem c9_shell_init_idempotent (hook ls : List String) (hh : delim_free hook)
    (hwf : wf_rc ls) :
    shell_init_rc hook (shell_init_rc hook ls) = shell_init_rc hook ls := by
  rcases hwf with hA | ⟨pre, mid, post, hls, hpre, hmid, hpost⟩
  · have hnone : break_at block_open ls = none :=
      break_at_eq_none (fun l hl => (hA l hl).1)
    have e1 : shell_init_rc hook ls = ls ++ block_open :: (hook ++ block_close :: []) := by
      simp [shell_init_rc, hnone, hook_block]
    rw [e1]
    exact shell_init_rc_fixed hh hA
  · subst hls
    have h1 : break_at block_open (pre ++ block_open :: (mid ++ block_close :: post))
        = some (pre, mid ++ block_close :: post) :=
      break_at_append (fun l hl => (hpre l hl).1)
    have h2 : break_at block_close (mid ++ block_close :: post) = some (mid, post) :=
      break_at_append (fun l hl => (hmid l hl).2)
    by_cases hm : mid = hook
    · have e1 : shell_init_rc hook (pre ++ block_open :: (mid ++ block_close :: post))
          = pre ++ block_open :: (mid ++ block_close :: post) := by
        rw [hm]
        exact @shell_init_rc_fixed hook pre post hh hpre
      rw [e1]
      exact e1
    · have e1 : shell_init_rc hook (pre ++ block_open :: (mid ++ block_close :: post))
          = pre ++ block_open :: (hook ++ block_close :: post) := by
        simp [shell_init_rc, h1, h2, hm, hook_block]
      rw [e1]
      exact shell_init_rc_fixed hh hpre

/-- Witness for C9: a one-line hook and a one-line rc file; two runs of shell
init give the same file as one run. -/
theorem c9_witness :
    shell_init_rc ["eval mamba hook"] (shell_init_rc ["eval mamba hook"] ["echo hi"])
      = shell_init_rc ["eval mamba hook"] ["echo hi"] :=
  c9_shell_init_idempotent ["eval mamba hook"] ["echo hi"]
    (by unfold delim_free; decide)
    (Or.inl (by unfold delim_free; decide))

end MambaShell
